import Mathlib

/-!
Verification of the teller-mini sync backend (`src/server.js`).

The server's two sync endpoints, `POST /sync` (full backfill, lines 123-184)
and `POST /sync-delta` (incremental sync, lines 187-270), are embedded as
pure functions that, given an environment describing the responses of the
external collaborators (the Teller API and the Supabase store), return the
ordered trace of external calls the handler issues together with the HTTP
status and JSON body of the response.

The supabase-js client never rejects a query promise: both PostgREST and
transport failures are reported in the `error` field of the awaited result.
The source checks that field only where it does so explicitly (`stateErr`
for the cursor read at line 213, `error` for the token select at line 198);
the results of the `upsert_transaction` rpc calls and of the
`teller_sync_state` upsert are discarded.  The embedding therefore records
a store-reported error inside the corresponding trace event, exactly where
the source receives and ignores it.  The Teller helper `tellerGET`
(lines 57-70) does throw on a non-2xx status or transport failure, so the
fetch operations return `Except`.
-/

namespace TellerSync

/-- Institution payload nested inside a Teller account (`a.institution`). -/
structure Institution where
  id : String
  name : String
deriving DecidableEq

/-- A Teller account as returned by `listAccounts` (line 72-74). -/
structure Account where
  id : String
  institution : Option Institution
  name : String
  type : String
  subtype : String
  last_four : String
  currency : String
  status : String
deriving DecidableEq

/-- A Teller transaction as returned by `fetchTransactions` (lines 76-81).
JS `Number(...)` conversions on amounts are modelled on `Int`. -/
structure Txn where
  id : String
  account_id : String
  date : String
  description : String
  amount : Int
  type : String
  status : String
  running_balance : Option Int
  details : Option String
deriving DecidableEq

/-- The argument record of the `upsert_transaction` rpc call
(lines 155-166 and 221-232). -/
structure TxnRecord where
  p_id : String
  p_account_id : String
  p_posted_date : String
  p_description : String
  p_amount : Int
  p_type : String
  p_status : String
  p_running_balance : Option Int
  p_details : Option String
  p_raw : Txn
deriving DecidableEq

/-- Field mapping from a fetched transaction to the rpc record
(`p_id: t.id, ..., p_raw: t`). -/
def mkTxnRecord (t : Txn) : TxnRecord :=
  { p_id := t.id
    p_account_id := t.account_id
    p_posted_date := t.date
    p_description := t.description
    p_amount := t.amount
    p_type := t.type
    p_status := t.status
    p_running_balance := t.running_balance
    p_details := t.details
    p_raw := t }

/-- The argument record of the `upsert_account` rpc call (lines 139-149). -/
structure AccountRecord where
  p_id : String
  p_institution_id : Option String
  p_name : String
  p_type : String
  p_subtype : String
  p_last_four : String
  p_currency : String
  p_status : String
  p_raw : Account
deriving DecidableEq

/-- Field mapping for `upsert_account`; `p_institution_id` is
`a?.institution?.id ?? null`. -/
def mkAccountRecord (a : Account) : AccountRecord :=
  { p_id := a.id
    p_institution_id := a.institution.map (·.id)
    p_name := a.name
    p_type := a.type
    p_subtype := a.subtype
    p_last_four := a.last_four
    p_currency := a.currency
    p_status := a.status
    p_raw := a }

/-- JSON values occurring in the handlers' response bodies. -/
inductive JVal where
  | str (s : String)
  | num (n : Int)
  | bool (b : Bool)
deriving DecidableEq

/-- A JSON object body, as an ordered list of key/value pairs. -/
abbrev RespBody := List (String × JVal)

/-- One external call issued by a handler, in program order.  Store
operations whose result object the source receives (and possibly ignores)
carry the store-reported `err` field. -/
inductive Ev where
  | readLatestToken
  | listAccounts (token : String)
  | fetchTxns (accountId : String) (token : String) (query : List (String × String))
  | upsertInstitution (id : String) (name : String)
  | upsertAccount (r : AccountRecord)
  | upsertTransaction (r : TxnRecord) (err : Option String)
  | readCursor (accountId : String)
  | setCursor (accountId : String) (txnId : String) (updatedAt : String) (err : Option String)
deriving DecidableEq

/-- Result of the `teller_sync_state` cursor select (lines 208-212):
`data` is `last_seen_txn_id` of the matching row when one exists,
`error` is `stateErr`. -/
structure SbRead where
  data : Option String
  error : Option String

/-- Responses of the external collaborators for one handler invocation. -/
structure Env where
  /-- rows of `teller_tokens` as `(access_token, created_at)`. -/
  tokens : List (String × Nat)
  /-- error of the token select (line 198). -/
  tokenReadError : Option String
  /-- result of `listAccounts` (throws on failure). -/
  accountsResult : Except String (List Account)
  /-- result of `fetchTransactions`, keyed by account id and query string
  parameters (throws on failure). -/
  txnsResult : String → List (String × String) → Except String (List Txn)
  /-- result of the cursor select, keyed by account id. -/
  cursorRead : String → SbRead
  /-- error field of an `upsert_transaction` rpc result (discarded by the
  source). -/
  upsertTxnError : TxnRecord → Option String
  /-- error field of the cursor upsert result, keyed by account id
  (discarded by the source). -/
  setCursorError : String → Option String
  /-- value of `new Date().toISOString()`. -/
  now : String

/-- JS truthiness on a nullable string: `null`, `undefined` and `""` are
falsy. `jsOrNull s` models `s || null`. -/
def jsOrNull : Option String → Option String
  | some v => if v == "" then none else some v
  | none => none

/-- Query-string construction of `fetchTransactions` (lines 76-81):
`if (count) qs.set("count", String(count)); if (fromId) qs.set("from_id", fromId)`. -/
def fetchQuery (count : Nat) (fromId : Option String) : List (String × String) :=
  (if count == 0 then [] else [("count", toString count)]) ++
  (match jsOrNull fromId with
   | some s => [("from_id", s)]
   | none => [])

/-- The token select of lines 192-197: `order("created_at", descending)`,
`limit(1)`, `maybeSingle()` — the row with the greatest `created_at`
(earlier row wins a tie). -/
def latestToken : List (String × Nat) → Option (String × Nat)
  | [] => none
  | r :: rs =>
    match latestToken rs with
    | none => some r
    | some b => if b.2 > r.2 then some b else some r

/-- Upsert events for a list of transactions, in list order; each event
records the store-reported error the source discards. -/
def txnUpsertEvs (env : Env) (ts : List Txn) : List Ev :=
  ts.map fun t => Ev.upsertTransaction (mkTxnRecord t) (env.upsertTxnError (mkTxnRecord t))

/-- The cursor write at the end of an account's pass: issued only when the
original (newest-first) fetch returned at least one record, with
`last_seen_txn_id` set to the first element's id (lines 170-176, 236-244). -/
def cursorEv (env : Env) (aid : String) : List Txn → List Ev
  | [] => []
  | t0 :: _ => [Ev.setCursor aid t0.id env.now (env.setCursorError aid)]

/-- One account's pass of `POST /sync-delta` (lines 206-245): read the
cursor (throw on `stateErr`), fetch with `fromId = state?.last_seen_txn_id
|| null` and `count: 500`, upsert the reversed list, then write the cursor
when the fetch was non-empty.  Returns the trace and, on success, the
number of `inserted++` increments. -/
def deltaAccount (env : Env) (tok : String) (a : Account) : List Ev × Except String Nat :=
  match (env.cursorRead a.id).error with
  | some e => ([Ev.readCursor a.id], Except.error e)
  | none =>
    match env.txnsResult a.id (fetchQuery 500 (jsOrNull (env.cursorRead a.id).data)) with
    | Except.error e =>
        ([Ev.readCursor a.id,
          Ev.fetchTxns a.id tok (fetchQuery 500 (jsOrNull (env.cursorRead a.id).data))],
         Except.error e)
    | Except.ok txns =>
        ([Ev.readCursor a.id,
          Ev.fetchTxns a.id tok (fetchQuery 500 (jsOrNull (env.cursorRead a.id).data))]
           ++ txnUpsertEvs env txns.reverse ++ cursorEv env a.id txns,
         Except.ok txns.reverse.length)

/-- The `for (const a of accounts)` loop of `POST /sync-delta`: a thrown
error anywhere aborts the whole loop (there is no per-account catch);
traces of completed iterations are kept. -/
def deltaLoop (env : Env) (tok : String) : List Account → List Ev × Except String Nat
  | [] => ([], Except.ok 0)
  | a :: rest =>
    match deltaAccount env tok a with
    | (tr, Except.error e) => (tr, Except.error e)
    | (tr, Except.ok n) =>
      match deltaLoop env tok rest with
      | (tr2, Except.error e) => (tr ++ tr2, Except.error e)
      | (tr2, Except.ok m) => (tr ++ tr2, Except.ok (n + m))

/-- Shared tail of `POST /sync-delta` once an access token is in hand:
list accounts, run the loop, answer `{ok: true, new_transactions: inserted}`
on success and `500 {error}` when anything threw. -/
def afterToken (env : Env) (tok : String) (pre : List Ev) : List Ev × Nat × RespBody :=
  match env.accountsResult with
  | Except.error e => (pre ++ [Ev.listAccounts tok], 500, [("error", JVal.str e)])
  | Except.ok accounts =>
    match deltaLoop env tok accounts with
    | (tr, Except.error e) =>
        (pre ++ [Ev.listAccounts tok] ++ tr, 500, [("error", JVal.str e)])
    | (tr, Except.ok inserted) =>
        (pre ++ [Ev.listAccounts tok] ++ tr, 200,
         [("ok", JVal.bool true), ("new_transactions", JVal.num inserted)])

/-- `POST /sync-delta` (lines 187-270).  The access token is the body token
when truthy, otherwise the most recently saved token; `if (!accessToken)`
answers `400 {error: "No access token on file"}`. -/
def runDeltaSync (env : Env) (bodyToken : Option String) : List Ev × Nat × RespBody :=
  match jsOrNull bodyToken with
  | some tok => afterToken env tok []
  | none =>
    match env.tokenReadError with
    | some e => ([Ev.readLatestToken], 500, [("error", JVal.str e)])
    | none =>
      match jsOrNull ((latestToken env.tokens).map Prod.fst) with
      | none =>
          ([Ev.readLatestToken], 400, [("error", JVal.str "No access token on file")])
      | some tok => afterToken env tok [Ev.readLatestToken]

/-- Institution upsert of lines 135-137: issued only when
`instId && instName` are both truthy. -/
def instEvs (a : Account) : List Ev :=
  match a.institution with
  | none => []
  | some i => if i.id == "" || i.name == "" then [] else [Ev.upsertInstitution i.id i.name]

/-- One account's pass of `POST /sync` (lines 131-177): institution upsert
when available, account upsert, fetch with `{count}` and no cursor, upsert
the transactions in the fetched (newest-first) order, then write the cursor
when the fetch was non-empty.  Returns the trace and, on success, the
`txnTotal` contribution `txns.length`. -/
def fullAccount (env : Env) (tok : String) (count : Nat) (a : Account) :
    List Ev × Except String Nat :=
  match env.txnsResult a.id (fetchQuery count none) with
  | Except.error e =>
      (instEvs a ++ [Ev.upsertAccount (mkAccountRecord a),
        Ev.fetchTxns a.id tok (fetchQuery count none)],
       Except.error e)
  | Except.ok txns =>
      (instEvs a ++ [Ev.upsertAccount (mkAccountRecord a),
        Ev.fetchTxns a.id tok (fetchQuery count none)]
         ++ txnUpsertEvs env txns ++ cursorEv env a.id txns,
       Except.ok txns.length)

/-- The `for (const a of accounts)` loop of `POST /sync`: a thrown error
aborts the whole loop; `txnTotal` accumulates `txns.length`. -/
def fullLoop (env : Env) (tok : String) (count : Nat) :
    List Account → List Ev × Except String Nat
  | [] => ([], Except.ok 0)
  | a :: rest =>
    match fullAccount env tok count a with
    | (tr, Except.error e) => (tr, Except.error e)
    | (tr, Except.ok n) =>
      match fullLoop env tok count rest with
      | (tr2, Except.error e) => (tr ++ tr2, Except.error e)
      | (tr2, Except.ok m) => (tr ++ tr2, Except.ok (n + m))

/-- `POST /sync` (lines 123-184).  `{accessToken, count = 500}` is read
from the body (`count` defaults to 500 only when absent); a falsy token
answers `400 {error: "Missing accessToken"}`; on success the body is
`{ok: true, accounts: accounts.length, transactions: txnTotal}`. -/
def runFullSync (env : Env) (bodyToken : Option String) (bodyCount : Option Nat) :
    List Ev × Nat × RespBody :=
  match jsOrNull bodyToken with
  | none => ([], 400, [("error", JVal.str "Missing accessToken")])
  | some tok =>
    match env.accountsResult with
    | Except.error e => ([Ev.listAccounts tok], 500, [("error", JVal.str e)])
    | Except.ok accounts =>
      match fullLoop env tok (bodyCount.getD 500) accounts with
      | (tr, Except.error e) =>
          ([Ev.listAccounts tok] ++ tr, 500, [("error", JVal.str e)])
      | (tr, Except.ok txnTotal) =>
          ([Ev.listAccounts tok] ++ tr, 200,
           [("ok", JVal.bool true), ("accounts", JVal.num accounts.length),
            ("transactions", JVal.num txnTotal)])

/-- State of the persistent store: the set of transaction ids that were
durably persisted and the `teller_sync_state` cursor map. -/
structure StoreState where
  txnIds : List String
  cursors : List (String × String)
deriving DecidableEq

/-- Key-based upsert into an association list. -/
def setAssoc (k v : String) : List (String × String) → List (String × String)
  | [] => [(k, v)]
  | (k', v') :: rest => if k' == k then (k, v) :: rest else (k', v') :: setAssoc k v rest

/-- Effect of one trace event on the store: a write whose result carried an
error did not persist; reads and Teller calls change nothing. -/
def applyEv (s : StoreState) : Ev → StoreState
  | Ev.upsertTransaction r none =>
      { s with txnIds := if r.p_id ∈ s.txnIds then s.txnIds else r.p_id :: s.txnIds }
  | Ev.setCursor aid tid _ none => { s with cursors := setAssoc aid tid s.cursors }
  | _ => s

/-- Effect of a whole trace on the store, in order. -/
def applyEvents (s : StoreState) (evs : List Ev) : StoreState := evs.foldl applyEv s

/-- `true` exactly on cursor-write events. -/
def isSetCursor : Ev → Bool
  | Ev.setCursor _ _ _ _ => true
  | _ => false

/-- `true` exactly on transaction-upsert events. -/
def isTxnUpsert : Ev → Bool
  | Ev.upsertTransaction _ _ => true
  | _ => false

/-- `true` exactly on account-upsert events. -/
def isAccountUpsert : Ev → Bool
  | Ev.upsertAccount _ => true
  | _ => false

/-- Every cursor-write event in the list is its last element. -/
def cursorWriteLast : List Ev → Bool
  | [] => true
  | e :: rest => if isSetCursor e then rest.isEmpty else cursorWriteLast rest

/-! ### Concrete fixtures used to check the handlers on explicit inputs -/

/-- A sample account. -/
def tA : Account :=
  { id := "acc1"
    institution := some ⟨"inst1", "Bank"⟩
    name := "Checking"
    type := "depository"
    subtype := "checking"
    last_four := "1234"
    currency := "USD"
    status := "open" }

/-- A second sample account. -/
def tB : Account := { tA with id := "acc2" }

/-- A sample transaction with the given id. -/
def txn (i : String) : Txn :=
  { id := i
    account_id := "acc1"
    date := "2026-01-01"
    description := "coffee"
    amount := -5
    type := "card_payment"
    status := "posted"
    running_balance := some 100
    details := none }

/-- Baseline environment: one account, empty token store, cursorless, no
transactions upstream, all store writes succeed. -/
def envBase : Env :=
  { tokens := []
    tokenReadError := none
    accountsResult := Except.ok [tA]
    txnsResult := fun _ _ => Except.ok []
    cursorRead := fun _ => { data := none, error := none }
    upsertTxnError := fun _ => none
    setCursorError := fun _ => none
    now := "2026-10-11T00:00:00.000Z" }

/-- One fetched transaction whose `upsert_transaction` call reports a store
error. -/
def envC1 : Env :=
  { envBase with
    txnsResult := fun _ _ => Except.ok [txn "t1"]
    upsertTxnError := fun _ => some "disk full" }

/-- Two accounts; the cursor read for the first reports a store error. -/
def envC2 : Env :=
  { envBase with
    accountsResult := Except.ok [tA, tB]
    cursorRead := fun aid =>
      if aid == "acc1" then { data := none, error := some "db down" }
      else { data := none, error := none } }

/-- The fetch returns two transactions, newest (`t2`) first. -/
def envC3 : Env :=
  { envBase with
    txnsResult := fun _ _ => Except.ok [txn "t2", txn "t1"] }

/-- The cursor row exists but holds the empty string. -/
def envC7 : Env :=
  { envBase with
    cursorRead := fun _ => { data := some "", error := none } }

/-- The token store holds a single row whose access token is the empty
string. -/
def envEmptyTok : Env :=
  { envBase with tokens := [("", 5)] }

/-- The token store holds two rows; the one saved later is `tokB`. -/
def envTok2 : Env :=
  { envBase with tokens := [("tokA", 1), ("tokB", 5)] }

/-- A stored cursor `t1`; fetching beyond it yields `t5` (newest) then
`t4`. -/
def envD : Env :=
  { envBase with
    cursorRead := fun _ => { data := some "t1", error := none }
    txnsResult := fun _ q =>
      if q == [("count", "500"), ("from_id", "t1")] then Except.ok [txn "t5", txn "t4"]
      else Except.ok [] }

/-! ### Computation lemmas for the per-account passes -/

theorem deltaAccount_cursorErr (env : Env) (tok : String) (a : Account) (e : String)
    (h : (env.cursorRead a.id).error = some e) :
    deltaAccount env tok a = ([Ev.readCursor a.id], Except.error e) := by
  unfold deltaAccount
  rw [h]

theorem deltaAccount_fetchErr (env : Env) (tok : String) (a : Account) (e : String)
    (h1 : (env.cursorRead a.id).error = none)
    (h2 : env.txnsResult a.id (fetchQuery 500 (jsOrNull (env.cursorRead a.id).data))
            = Except.error e) :
    deltaAccount env tok a
      = ([Ev.readCursor a.id,
          Ev.fetchTxns a.id tok (fetchQuery 500 (jsOrNull (env.cursorRead a.id).data))],
         Except.error e) := by
  unfold deltaAccount
  rw [h1, h2]

theorem deltaAccount_ok (env : Env) (tok : String) (a : Account) (txns : List Txn)
    (h1 : (env.cursorRead a.id).error = none)
    (h2 : env.txnsResult a.id (fetchQuery 500 (jsOrNull (env.cursorRead a.id).data))
            = Except.ok txns) :
    deltaAccount env tok a
      = ([Ev.readCursor a.id,
          Ev.fetchTxns a.id tok (fetchQuery 500 (jsOrNull (env.cursorRead a.id).data))]
           ++ txnUpsertEvs env txns.reverse ++ cursorEv env a.id txns,
         Except.ok txns.length) := by
  unfold deltaAccount
  rw [h1, h2]
  simp

theorem fullAccount_fetchErr (env : Env) (tok : String) (count : Nat) (a : Account) (e : String)
    (h : env.txnsResult a.id (fetchQuery count none) = Except.error e) :
    fullAccount env tok count a
      = (instEvs a ++ [Ev.upsertAccount (mkAccountRecord a),
          Ev.fetchTxns a.id tok (fetchQuery count none)],
         Except.error e) := by
  unfold fullAccount
  rw [h]

theorem fullAccount_ok (env : Env) (tok : String) (count : Nat) (a : Account) (txns : List Txn)
    (h : env.txnsResult a.id (fetchQuery count none) = Except.ok txns) :
    fullAccount env tok count a
      = (instEvs a ++ [Ev.upsertAccount (mkAccountRecord a),
          Ev.fetchTxns a.id tok (fetchQuery count none)]
           ++ txnUpsertEvs env txns ++ cursorEv env a.id txns,
         Except.ok txns.length) := by
  unfold fullAccount
  rw [h]

/-! ### Filter and membership lemmas over event traces -/

theorem txnUpsertEvs_filter_upsert (env : Env) (ts : List Txn) :
    (txnUpsertEvs env ts).filter isTxnUpsert = txnUpsertEvs env ts := by
  induction ts with
  | nil => rfl
  | cons t ts _ => simp [txnUpsertEvs, List.filter, isTxnUpsert]

theorem txnUpsertEvs_filter_setCursor (env : Env) (ts : List Txn) :
    (txnUpsertEvs env ts).filter isSetCursor = [] := by
  induction ts with
  | nil => rfl
  | cons t ts _ => simp [txnUpsertEvs, List.filter, isSetCursor]

theorem txnUpsertEvs_filter_accountUpsert (env : Env) (ts : List Txn) :
    (txnUpsertEvs env ts).filter isAccountUpsert = [] := by
  induction ts with
  | nil => rfl
  | cons t ts _ => simp [txnUpsertEvs, List.filter, isAccountUpsert]

theorem cursorEv_filter_setCursor (env : Env) (aid : String) (ts : List Txn) :
    (cursorEv env aid ts).filter isSetCursor = cursorEv env aid ts := by
  cases ts <;> rfl

theorem cursorEv_filter_upsert (env : Env) (aid : String) (ts : List Txn) :
    (cursorEv env aid ts).filter isTxnUpsert = [] := by
  cases ts <;> rfl

theorem cursorEv_filter_accountUpsert (env : Env) (aid : String) (ts : List Txn) :
    (cursorEv env aid ts).filter isAccountUpsert = [] := by
  cases ts <;> rfl

theorem instEvs_filter_setCursor (a : Account) : (instEvs a).filter isSetCursor = [] := by
  unfold instEvs
  cases a.institution with
  | none => rfl
  | some i =>
    by_cases h : (i.id == "" || i.name == "") = true
    · simp [h]
    · simp [h, List.filter, isSetCursor]

theorem instEvs_filter_upsert (a : Account) : (instEvs a).filter isTxnUpsert = [] := by
  unfold instEvs
  cases a.institution with
  | none => rfl
  | some i =>
    by_cases h : (i.id == "" || i.name == "") = true
    · simp [h]
    · simp [h, List.filter, isTxnUpsert]

theorem mem_txnUpsertEvs_not_setCursor (env : Env) (ts : List Txn) :
    ∀ e ∈ txnUpsertEvs env ts, isSetCursor e = false := by
  intro e he
  simp only [txnUpsertEvs, List.mem_map] at he
  obtain ⟨t, _, rfl⟩ := he
  rfl

/-! ### cursorWriteLast lemmas -/

theorem cursorWriteLast_append (l tail : List Ev) (h : ∀ e ∈ l, isSetCursor e = false) :
    cursorWriteLast (l ++ tail) = cursorWriteLast tail := by
  induction l with
  | nil => rfl
  | cons e l ih =>
    have he : isSetCursor e = false := h e (List.mem_cons_self e l)
    simp only [List.cons_append, cursorWriteLast, he, Bool.false_eq_true, if_false]
    exact ih fun x hx => h x (List.mem_cons_of_mem e hx)

theorem cursorWriteLast_cursorEv (env : Env) (aid : String) (ts : List Txn) :
    cursorWriteLast (cursorEv env aid ts) = true := by
  cases ts <;> rfl

/-! ### Store-application lemmas -/

theorem applyEvents_append (s : StoreState) (l1 l2 : List Ev) :
    applyEvents s (l1 ++ l2) = applyEvents (applyEvents s l1) l2 := by
  simp [applyEvents, List.foldl_append]

/-! ### latestToken lemmas -/

theorem latestToken_max (l : List (String × Nat)) :
    ∀ p ∈ l, ∃ q, latestToken l = some q ∧ p.2 ≤ q.2 := by
  induction l with
  | nil => intro p hp; cases hp
  | cons r rs ih =>
    intro p hp
    rcases List.mem_cons.mp hp with rfl | hp'
    · cases hlt : latestToken rs with
      | none => exact ⟨p, by simp [latestToken, hlt], le_refl _⟩
      | some b =>
        by_cases hb : b.2 > p.2
        · exact ⟨b, by simp [latestToken, hlt, hb], le_of_lt hb⟩
        · exact ⟨p, by simp [latestToken, hlt, hb], le_refl _⟩
    · obtain ⟨q, hq, hle⟩ := ih p hp'
      cases hlt : latestToken rs with
      | none => rw [hlt] at hq; cases hq
      | some b =>
        rw [hlt] at hq
        cases hq
        by_cases hb : q.2 > r.2
        · exact ⟨q, by simp [latestToken, hlt, hb], hle⟩
        · exact ⟨r, by simp [latestToken, hlt, hb], le_trans hle (le_of_not_lt hb)⟩

/-! ### afterToken structure lemmas -/

theorem afterToken_trace (env : Env) (tok : String) (pre : List Ev) :
    ∃ rest, (afterToken env tok pre).1 = pre ++ Ev.listAccounts tok :: rest := by
  unfold afterToken
  cases env.accountsResult with
  | error e => exact ⟨[], by simp⟩
  | ok accounts =>
    dsimp only
    rcases h : deltaLoop env tok accounts with ⟨tr, r⟩
    cases r <;> exact ⟨tr, by simp⟩

theorem afterToken_loopErr (env : Env) (tok : String) (pre tr : List Ev) (e : String)
    (accounts : List Account)
    (hacc : env.accountsResult = Except.ok accounts)
    (hloop : deltaLoop env tok accounts = (tr, Except.error e)) :
    afterToken env tok pre = (pre ++ [Ev.listAccounts tok] ++ tr, 500, [("error", JVal.str e)]) := by
  unfold afterToken
  rw [hacc]
  dsimp only
  rw [hloop]

theorem afterToken_loopOk (env : Env) (tok : String) (pre tr : List Ev) (n : Nat)
    (accounts : List Account)
    (hacc : env.accountsResult = Except.ok accounts)
    (hloop : deltaLoop env tok accounts = (tr, Except.ok n)) :
    afterToken env tok pre
      = (pre ++ [Ev.listAccounts tok] ++ tr, 200,
         [("ok", JVal.bool true), ("new_transactions", JVal.num n)]) := by
  unfold afterToken
  rw [hacc]
  dsimp only
  rw [hloop]

theorem runDeltaSync_bodyTok (env : Env) (tok : String) (htok : tok ≠ "") :
    runDeltaSync env (some tok) = afterToken env tok [] := by
  unfold runDeltaSync jsOrNull
  simp [htok]

theorem deltaLoop_cons_err (env : Env) (tok : String) (a : Account) (rest : List Account)
    (tr : List Ev) (e : String)
    (h : deltaAccount env tok a = (tr, Except.error e)) :
    deltaLoop env tok (a :: rest) = (tr, Except.error e) := by
  unfold deltaLoop
  rw [h]

theorem fullLoop_cons_err (env : Env) (tok : String) (count : Nat) (a : Account)
    (rest : List Account) (tr : List Ev) (e : String)
    (h : fullAccount env tok count a = (tr, Except.error e)) :
    fullLoop env tok count (a :: rest) = (tr, Except.error e) := by
  unfold fullLoop
  rw [h]

theorem runFullSync_loopErr (env : Env) (tok : String) (bodyCount : Option Nat)
    (tr : List Ev) (e : String) (accounts : List Account)
    (htok : tok ≠ "")
    (hacc : env.accountsResult = Except.ok accounts)
    (hloop : fullLoop env tok (bodyCount.getD 500) accounts = (tr, Except.error e)) :
    runFullSync env (some tok) bodyCount
      = ([Ev.listAccounts tok] ++ tr, 500, [("error", JVal.str e)]) := by
  unfold runFullSync jsOrNull
  simp only [beq_iff_eq, htok, if_false]
  rw [hacc]
  dsimp only
  rw [hloop]

theorem runFullSync_loopOk (env : Env) (tok : String) (bodyCount : Option Nat)
    (tr : List Ev) (n : Nat) (accounts : List Account)
    (htok : tok ≠ "")
    (hacc : env.accountsResult = Except.ok accounts)
    (hloop : fullLoop env tok (bodyCount.getD 500) accounts = (tr, Except.ok n)) :
    runFullSync env (some tok) bodyCount
      = ([Ev.listAccounts tok] ++ tr, 200,
         [("ok", JVal.bool true), ("accounts", JVal.num accounts.length),
          ("transactions", JVal.num n)]) := by
  unfold runFullSync jsOrNull
  simp only [beq_iff_eq, htok, if_false]
  rw [hacc]
  dsimp only
  rw [hloop]

theorem afterToken_status (env : Env) (tok : String) (pre : List Ev) :
    (afterToken env tok pre).2.1 = 200 ∨ (afterToken env tok pre).2.1 = 500 := by
  unfold afterToken
  cases env.accountsResult with
  | error e => exact Or.inr rfl
  | ok accounts =>
    dsimp only
    rcases h : deltaLoop env tok accounts with ⟨tr, r⟩
    cases r
    · exact Or.inr rfl
    · exact Or.inl rfl

/-! ### The delta handler never issues an account upsert -/

theorem deltaAccount_filter_accountUpsert (env : Env) (tok : String) (a : Account) :
    (deltaAccount env tok a).1.filter isAccountUpsert = [] := by
  rcases h1 : (env.cursorRead a.id).error with _ | e
  · rcases h2 : env.txnsResult a.id (fetchQuery 500 (jsOrNull (env.cursorRead a.id).data))
      with e | txns
    · rw [deltaAccount_fetchErr env tok a e h1 h2]
      rfl
    · rw [deltaAccount_ok env tok a txns h1 h2]
      simp [List.filter_append, txnUpsertEvs_filter_accountUpsert,
        cursorEv_filter_accountUpsert, List.filter, isAccountUpsert]
  · rw [deltaAccount_cursorErr env tok a e h1]
    rfl

theorem deltaLoop_filter_accountUpsert (env : Env) (tok : String) :
    ∀ l : List Account, (deltaLoop env tok l).1.filter isAccountUpsert = []
  | [] => rfl
  | a :: rest => by
    have hrest := deltaLoop_filter_accountUpsert env tok rest
    rcases h : deltaAccount env tok a with ⟨tr, r⟩
    have htr : tr.filter isAccountUpsert = [] := by
      have h' := deltaAccount_filter_accountUpsert env tok a
      rw [h] at h'
      exact h'
    cases r with
    | error e =>
      rw [deltaLoop_cons_err env tok a rest tr e h]
      exact htr
    | ok n =>
      unfold deltaLoop
      rw [h]
      rcases h2 : deltaLoop env tok rest with ⟨tr2, r2⟩
      rw [h2] at hrest
      cases r2 <;> simp [List.filter_append, htr, hrest]

theorem afterToken_filter_accountUpsert (env : Env) (tok : String) (pre : List Ev)
    (hpre : pre.filter isAccountUpsert = []) :
    (afterToken env tok pre).1.filter isAccountUpsert = [] := by
  unfold afterToken
  cases env.accountsResult with
  | error e => simp [List.filter_append, hpre, List.filter, isAccountUpsert]
  | ok accounts =>
    dsimp only
    have hl := deltaLoop_filter_accountUpsert env tok accounts
    rcases h : deltaLoop env tok accounts with ⟨tr, r⟩
    rw [h] at hl
    cases r <;> simp [List.filter_append, hpre, hl, List.filter, isAccountUpsert]

theorem runDeltaSync_filter_accountUpsert (env : Env) (bodyToken : Option String) :
    (runDeltaSync env bodyToken).1.filter isAccountUpsert = [] := by
  unfold runDeltaSync
  cases jsOrNull bodyToken with
  | some tok => exact afterToken_filter_accountUpsert env tok [] rfl
  | none =>
    cases env.tokenReadError with
    | some e => rfl
    | none =>
      cases jsOrNull ((latestToken env.tokens).map Prod.fst) with
      | none => rfl
      | some tok => exact afterToken_filter_accountUpsert env tok [Ev.readLatestToken] rfl

/-! ### Quiet-source delta runs write nothing -/

theorem deltaLoop_quiet (env : Env) (tok : String) :
    ∀ accounts : List Account,
      (∀ a ∈ accounts, (env.cursorRead a.id).error = none ∧
          env.txnsResult a.id (fetchQuery 500 (jsOrNull (env.cursorRead a.id).data))
            = Except.ok []) →
      (deltaLoop env tok accounts).2 = Except.ok 0 ∧
        ∀ s : StoreState, applyEvents s (deltaLoop env tok accounts).1 = s := by
  intro accounts
  induction accounts with
  | nil => exact fun _ => ⟨rfl, fun _ => rfl⟩
  | cons a rest ih =>
    intro hq
    have ha := hq a (List.mem_cons_self a rest)
    have hrest := ih fun x hx => hq x (List.mem_cons_of_mem a hx)
    have hda : deltaAccount env tok a
        = ([Ev.readCursor a.id,
            Ev.fetchTxns a.id tok (fetchQuery 500 (jsOrNull (env.cursorRead a.id).data))],
           Except.ok 0) := by
      rw [deltaAccount_ok env tok a [] ha.1 ha.2]
      rfl
    unfold deltaLoop
    rw [hda]
    rcases h2 : deltaLoop env tok rest with ⟨tr2, r2⟩
    rw [h2] at hrest
    cases r2 with
    | error e => exact absurd hrest.1 (by simp)
    | ok m =>
      obtain ⟨hm, happ⟩ := hrest
      have hm' : m = 0 := by simpa using hm
      subst hm'
      refine ⟨rfl, fun s => ?_⟩
      dsimp only
      rw [applyEvents_append]
      exact happ s

/-! ## Claim C1 -/

/-- C1, counterexample.  The claim says that if any transaction upsert of an
account's delta pass fails, the cursor is left unchanged and therefore never
references an unpersisted transaction id.  In `envC1` the single upsert of
`t1` reports a store error (`disk full`), which the source discards
(line 221 ignores the rpc result), so the pass still writes the cursor:
starting from an empty store, the run ends with `last_seen_txn_id = "t1"`
for `acc1` while no transaction was persisted — the cursor references a
transaction id that was never written. -/
theorem c1_counterexample :
    (applyEvents { txnIds := [], cursors := [] } (runDeltaSync envC1 (some "tok")).1).cursors
        = [("acc1", "t1")]
  ∧ (applyEvents { txnIds := [], cursors := [] } (runDeltaSync envC1 (some "tok")).1).txnIds
        = []
  ∧ Ev.upsertTransaction (mkTxnRecord (txn "t1")) (some "disk full")
        ∈ (runDeltaSync envC1 (some "tok")).1 := by
  exact ⟨by decide, by decide, by decide⟩

/-- C1, amended.  In `runDeltaSync`, for every account, the cursor write is
issued only after every transaction upsert of that account's pass has been
issued (any cursor-write event is the last event of the account's trace),
and a cursor-read error or a fetch error aborts the pass before any cursor
write; however the results of the transaction upserts are not checked, so
whenever the fetch returned at least one record the cursor is written with
the newest fetched id regardless of whether any upsert reported an error
(the third conjunct has no hypothesis about `upsertTxnError`). -/
theorem c1_cursor_write_after_upserts (env : Env) (tok : String) (a : Account) :
    cursorWriteLast (deltaAccount env tok a).1 = true
  ∧ (∀ e, (deltaAccount env tok a).2 = Except.error e →
      (deltaAccount env tok a).1.filter isSetCursor = [])
  ∧ (∀ (t0 : Txn) (ts : List Txn), (env.cursorRead a.id).error = none →
      env.txnsResult a.id (fetchQuery 500 (jsOrNull (env.cursorRead a.id).data))
        = Except.ok (t0 :: ts) →
      Ev.setCursor a.id t0.id env.now (env.setCursorError a.id)
        ∈ (deltaAccount env tok a).1) := by
  refine ⟨?_, ?_, ?_⟩
  · rcases h1 : (env.cursorRead a.id).error with _ | e
    · rcases h2 : env.txnsResult a.id (fetchQuery 500 (jsOrNull (env.cursorRead a.id).data))
        with e | txns
      · rw [deltaAccount_fetchErr env tok a e h1 h2]
        rfl
      · rw [deltaAccount_ok env tok a txns h1 h2]
        refine Eq.trans (cursorWriteLast_append _ _ ?_) (cursorWriteLast_cursorEv env a.id txns)
        intro e he
        rcases List.mem_append.mp he with h | h
        · simp only [List.mem_cons, List.not_mem_nil, or_false] at h
          rcases h with rfl | rfl
          · rfl
          · rfl
        · exact mem_txnUpsertEvs_not_setCursor env _ e h
    · rw [deltaAccount_cursorErr env tok a e h1]
      rfl
  · intro e he
    rcases h1 : (env.cursorRead a.id).error with _ | e'
    · rcases h2 : env.txnsResult a.id (fetchQuery 500 (jsOrNull (env.cursorRead a.id).data))
        with e' | txns
      · rw [deltaAccount_fetchErr env tok a e' h1 h2]
        rfl
      · rw [deltaAccount_ok env tok a txns h1 h2] at he
        simp at he
    · rw [deltaAccount_cursorErr env tok a e' h1]
      rfl
  · intro t0 ts h1 h2
    rw [deltaAccount_ok env tok a (t0 :: ts) h1 h2]
    simp [cursorEv]

/-- C1, witness for the amended theorem, at the concrete input `envC1`:
the cursor write is the last event of the pass, and it is present even
though the upsert of `t1` reported an error. -/
theorem c1_cursor_write_after_upserts_witness :
    cursorWriteLast (deltaAccount envC1 "tok" tA).1 = true
  ∧ Ev.setCursor "acc1" "t1" "2026-10-11T00:00:00.000Z" none
      ∈ (deltaAccount envC1 "tok" tA).1 :=
  ⟨(c1_cursor_write_after_upserts envC1 "tok" tA).1,
   (c1_cursor_write_after_upserts envC1 "tok" tA).2.2 (txn "t1") [] rfl rfl⟩

/-! ## Claim C2 -/

/-- C2, counterexample.  The claim says a per-account failure is caught at
the account boundary, remaining accounts still run, the summary carries a
per-account error list, and the response stays 2xx.  In `envC2` the cursor
read of the first account (`acc1`) reports a store error: the whole run
aborts with HTTP 500 and body `{error: "db down"}` (no per-account error
list), and the second account `acc2` is never touched. -/
theorem c2_counterexample :
    runDeltaSync envC2 (some "tok")
        = ([Ev.listAccounts "tok", Ev.readCursor "acc1"], 500,
           [("error", JVal.str "db down")])
  ∧ Ev.readCursor "acc2" ∉ (runDeltaSync envC2 (some "tok")).1 := by
  exact ⟨by decide, by decide⟩

/-- C2, amended.  In both `runDeltaSync` and `runFullSync` there is no
per-account catch: the first error raised while processing an account
(cursor-read error or fetch error) unwinds to the handler's single
try/catch, which answers HTTP 500 with `{error: message}`; the accounts
after the failing one are never processed (the result below does not
depend on `rest`), and no per-account error list exists in any response. -/
theorem c2_account_failure_aborts_run :
    (∀ (env : Env) (tok : String) (a : Account) (rest : List Account)
        (tr : List Ev) (e : String),
        tok ≠ "" →
        env.accountsResult = Except.ok (a :: rest) →
        deltaAccount env tok a = (tr, Except.error e) →
        runDeltaSync env (some tok)
          = ([Ev.listAccounts tok] ++ tr, 500, [("error", JVal.str e)]))
  ∧ (∀ (env : Env) (tok : String) (bodyCount : Option Nat) (a : Account)
        (rest : List Account) (tr : List Ev) (e : String),
        tok ≠ "" →
        env.accountsResult = Except.ok (a :: rest) →
        fullAccount env tok (bodyCount.getD 500) a = (tr, Except.error e) →
        runFullSync env (some tok) bodyCount
          = ([Ev.listAccounts tok] ++ tr, 500, [("error", JVal.str e)])) := by
  constructor
  · intro env tok a rest tr e htok hacc h
    rw [runDeltaSync_bodyTok env tok htok,
      afterToken_loopErr env tok [] tr e (a :: rest) hacc
        (deltaLoop_cons_err env tok a rest tr e h)]
    rfl
  · intro env tok bodyCount a rest tr e htok hacc h
    exact runFullSync_loopErr env tok bodyCount tr e (a :: rest) htok hacc
      (fullLoop_cons_err env tok (bodyCount.getD 500) a rest tr e h)

/-- C2, witness for the amended theorem at the concrete input `envC2`. -/
theorem c2_account_failure_aborts_run_witness :
    runDeltaSync envC2 (some "tok")
      = ([Ev.listAccounts "tok"] ++ [Ev.readCursor "acc1"], 500,
         [("error", JVal.str "db down")]) :=
  c2_account_failure_aborts_run.1 envC2 "tok" tA [tB] [Ev.readCursor "acc1"] "db down"
    (by decide) rfl rfl

/-! ## Claim C3 -/

/-- C3, counterexample.  The claim says both endpoints write transactions
oldest-first.  In `envC3` the full-sync fetch returns `[t2, t1]`
(newest-first, so `T1 = t1` is the oldest and `T2 = t2` the newest): the
store receives the upserts in the fetched order `t2, t1` — newest first —
not in the claimed order `t1, t2`; `POST /sync` never reverses
(source lines 154-167). -/
theorem c3_counterexample :
    (runFullSync envC3 (some "tok") none).1.filter isTxnUpsert
        = [Ev.upsertTransaction (mkTxnRecord (txn "t2")) none,
           Ev.upsertTransaction (mkTxnRecord (txn "t1")) none]
  ∧ (runFullSync envC3 (some "tok") none).1.filter isTxnUpsert
        ≠ [Ev.upsertTransaction (mkTxnRecord (txn "t1")) none,
           Ev.upsertTransaction (mkTxnRecord (txn "t2")) none] := by
  exact ⟨by decide, by decide⟩

/-- C3, amended.  Only `runDeltaSync` reverses the fetched newest-first
sequence before writing (`const ordered = [...txns].reverse()`, line 219),
so its store upserts are oldest-first `T1..Tn`; `runFullSync` iterates the
fetched array directly (line 154) and the store receives the upserts in the
fetched newest-first order `Tn..T1`. -/
theorem c3_write_order :
    (∀ (env : Env) (tok : String) (a : Account) (txns : List Txn),
        (env.cursorRead a.id).error = none →
        env.txnsResult a.id (fetchQuery 500 (jsOrNull (env.cursorRead a.id).data))
          = Except.ok txns →
        (deltaAccount env tok a).1.filter isTxnUpsert = txnUpsertEvs env txns.reverse)
  ∧ (∀ (env : Env) (tok : String) (count : Nat) (a : Account) (txns : List Txn),
        env.txnsResult a.id (fetchQuery count none) = Except.ok txns →
        (fullAccount env tok count a).1.filter isTxnUpsert = txnUpsertEvs env txns) := by
  constructor
  · intro env tok a txns h1 h2
    rw [deltaAccount_ok env tok a txns h1 h2]
    simp [List.filter_append, txnUpsertEvs_filter_upsert, cursorEv_filter_upsert,
      List.filter, isTxnUpsert]
  · intro env tok count a txns h
    rw [fullAccount_ok env tok count a txns h]
    simp [List.filter_append, txnUpsertEvs_filter_upsert, cursorEv_filter_upsert,
      instEvs_filter_upsert, List.filter, isTxnUpsert]

/-- C3, witness for the amended theorem: the delta pass of `envD`
(fetch `[t5, t4]`) upserts in reversed order, and the full pass of `envC3`
(fetch `[t2, t1]`) upserts in fetched order. -/
theorem c3_write_order_witness :
    (deltaAccount envD "tok" tA).1.filter isTxnUpsert
        = txnUpsertEvs envD ([txn "t5", txn "t4"]).reverse
  ∧ (fullAccount envC3 "tok" 500 tA).1.filter isTxnUpsert
        = txnUpsertEvs envC3 [txn "t2", txn "t1"] :=
  ⟨c3_write_order.1 envD "tok" tA [txn "t5", txn "t4"] rfl rfl,
   c3_write_order.2 envC3 "tok" 500 tA [txn "t2", txn "t1"] rfl⟩

/-! ## Claim C4 -/

/-- C4 (confirmed).  In both `runDeltaSync` and `runFullSync`, a pass whose
original newest-first fetch returned zero records writes no cursor, and a
pass whose fetch returned `t0 :: ts` writes exactly one cursor, set to
`t0.id` — the head of the pre-reversal fetched sequence (source lines
170-176 and 236-244 both take `txns[0].id` from the original array). -/
theorem c4_cursor_from_newest_first_head :
    (∀ (env : Env) (tok : String) (a : Account),
        (env.cursorRead a.id).error = none →
        env.txnsResult a.id (fetchQuery 500 (jsOrNull (env.cursorRead a.id).data))
          = Except.ok [] →
        (deltaAccount env tok a).1.filter isSetCursor = [])
  ∧ (∀ (env : Env) (tok : String) (a : Account) (t0 : Txn) (ts : List Txn),
        (env.cursorRead a.id).error = none →
        env.txnsResult a.id (fetchQuery 500 (jsOrNull (env.cursorRead a.id).data))
          = Except.ok (t0 :: ts) →
        (deltaAccount env tok a).1.filter isSetCursor
          = [Ev.setCursor a.id t0.id env.now (env.setCursorError a.id)])
  ∧ (∀ (env : Env) (tok : String) (count : Nat) (a : Account),
        env.txnsResult a.id (fetchQuery count none) = Except.ok [] →
        (fullAccount env tok count a).1.filter isSetCursor = [])
  ∧ (∀ (env : Env) (tok : String) (count : Nat) (a : Account) (t0 : Txn) (ts : List Txn),
        env.txnsResult a.id (fetchQuery count none) = Except.ok (t0 :: ts) →
        (fullAccount env tok count a).1.filter isSetCursor
          = [Ev.setCursor a.id t0.id env.now (env.setCursorError a.id)]) := by
  refine ⟨?_, ?_, ?_, ?_⟩
  · intro env tok a h1 h2
    rw [deltaAccount_ok env tok a [] h1 h2]
    simp [List.filter_append, txnUpsertEvs_filter_setCursor, cursorEv,
      List.filter, isSetCursor]
  · intro env tok a t0 ts h1 h2
    rw [deltaAccount_ok env tok a (t0 :: ts) h1 h2]
    simp [List.filter_append, txnUpsertEvs_filter_setCursor, cursorEv,
      List.filter, isSetCursor]
  · intro env tok count a h
    rw [fullAccount_ok env tok count a [] h]
    simp [List.filter_append, txnUpsertEvs_filter_setCursor, cursorEv,
      instEvs_filter_setCursor, List.filter, isSetCursor]
  · intro env tok count a t0 ts h
    rw [fullAccount_ok env tok count a (t0 :: ts) h]
    simp [List.filter_append, txnUpsertEvs_filter_setCursor, cursorEv,
      instEvs_filter_setCursor, List.filter, isSetCursor]

/-- C4, witness: the empty-fetch delta pass of `envBase` writes no cursor;
the delta pass of `envD` (fetch `[t5, t4]`, newest first) writes exactly the
cursor `t5`. -/
theorem c4_cursor_from_newest_first_head_witness :
    (deltaAccount envBase "tok" tA).1.filter isSetCursor = []
  ∧ (deltaAccount envD "tok" tA).1.filter isSetCursor
      = [Ev.setCursor "acc1" "t5" "2026-10-11T00:00:00.000Z" none] :=
  ⟨c4_cursor_from_newest_first_head.1 envBase "tok" tA rfl rfl,
   c4_cursor_from_newest_first_head.2.1 envD "tok" tA (txn "t5") [txn "t4"] rfl rfl⟩

/-! ## Claim C5 -/

/-- C5, counterexample.  The claim says that in `runDeltaSync` an account
with no prior cursor and zero available transactions is "still upserted".
In `envBase` (one account, no cursor row, empty fetch) the complete trace
of the run is `[listAccounts, readCursor, fetchTxns]`: no account-upsert
call occurs anywhere — `POST /sync-delta` (lines 206-245) never calls
`upsert_account` at all.  Cursor unset and zero-count do hold. -/
theorem c5_counterexample :
    runDeltaSync envBase (some "tok")
        = ([Ev.listAccounts "tok", Ev.readCursor "acc1",
            Ev.fetchTxns "acc1" "tok" [("count", "500")]],
           200, [("ok", JVal.bool true), ("new_transactions", JVal.num 0)])
  ∧ (runDeltaSync envBase (some "tok")).1.filter isAccountUpsert = [] := by
  exact ⟨by decide, by decide⟩

/-- C5, amended.  In `runDeltaSync` no account record is ever upserted (for
any environment, the run's trace contains no account-upsert event); for an
account with no matching cursor row and zero transactions available the
pass issues only the cursor read and the fetch — so the cursor stays unset
and the account contributes zero to `new_transactions`. -/
theorem c5_no_account_upsert_in_delta :
    (∀ (env : Env) (bodyToken : Option String),
        (runDeltaSync env bodyToken).1.filter isAccountUpsert = [])
  ∧ (∀ (env : Env) (tok : String) (a : Account),
        (env.cursorRead a.id).error = none →
        env.txnsResult a.id (fetchQuery 500 (jsOrNull (env.cursorRead a.id).data))
          = Except.ok [] →
        deltaAccount env tok a
          = ([Ev.readCursor a.id,
              Ev.fetchTxns a.id tok (fetchQuery 500 (jsOrNull (env.cursorRead a.id).data))],
             Except.ok 0)) := by
  constructor
  · exact runDeltaSync_filter_accountUpsert
  · intro env tok a h1 h2
    rw [deltaAccount_ok env tok a [] h1 h2]
    rfl

/-- C5, witness for the amended theorem at the concrete input `envBase`. -/
theorem c5_no_account_upsert_in_delta_witness :
    deltaAccount envBase "tok" tA
      = ([Ev.readCursor "acc1", Ev.fetchTxns "acc1" "tok" [("count", "500")]],
         Except.ok 0) :=
  c5_no_account_upsert_in_delta.2 envBase "tok" tA rfl rfl

/-! ## Claim C6 -/

/-- C6, counterexample.  The claim says both endpoints answer
`{ok: true, accounts: N, transactions: M}` on success.  A successful
`POST /sync-delta` run over `envBase` answers
`{ok: true, new_transactions: 0}`: the body has no `accounts` key and no
`transactions` key (source line 265). -/
theorem c6_counterexample :
    (runDeltaSync envBase (some "tok")).2
        = (200, [("ok", JVal.bool true), ("new_transactions", JVal.num 0)])
  ∧ ((runDeltaSync envBase (some "tok")).2.2).lookup "accounts" = none
  ∧ ((runDeltaSync envBase (some "tok")).2.2).lookup "transactions" = none := by
  exact ⟨by decide, by decide, by decide⟩

/-- C6, amended.  On success `POST /sync` answers
`{ok: true, accounts: N, transactions: M}` with `N` the number of listed
accounts and `M` the accumulated transaction count, but `POST /sync-delta`
answers `{ok: true, new_transactions: M}` — no `accounts` field, and the
count is keyed `new_transactions`. -/
theorem c6_response_shapes :
    (∀ (env : Env) (tok : String) (bodyCount : Option Nat) (accounts : List Account)
        (tr : List Ev) (n : Nat),
        tok ≠ "" →
        env.accountsResult = Except.ok accounts →
        fullLoop env tok (bodyCount.getD 500) accounts = (tr, Except.ok n) →
        runFullSync env (some tok) bodyCount
          = ([Ev.listAccounts tok] ++ tr, 200,
             [("ok", JVal.bool true), ("accounts", JVal.num accounts.length),
              ("transactions", JVal.num n)]))
  ∧ (∀ (env : Env) (tok : String) (accounts : List Account) (tr : List Ev) (n : Nat),
        tok ≠ "" →
        env.accountsResult = Except.ok accounts →
        deltaLoop env tok accounts = (tr, Except.ok n) →
        runDeltaSync env (some tok)
          = ([Ev.listAccounts tok] ++ tr, 200,
             [("ok", JVal.bool true), ("new_transactions", JVal.num n)])) := by
  constructor
  · exact fun env tok bodyCount accounts tr n htok hacc hloop =>
      runFullSync_loopOk env tok bodyCount tr n accounts htok hacc hloop
  · intro env tok accounts tr n htok hacc hloop
    rw [runDeltaSync_bodyTok env tok htok,
      afterToken_loopOk env tok [] tr n accounts hacc hloop]
    rfl

/-- C6, witness for the amended theorem: the full run over `envC3` answers
`{ok, accounts: 1, transactions: 2}` and the delta run over `envBase`
answers `{ok, new_transactions: 0}`. -/
theorem c6_response_shapes_witness :
    runFullSync envC3 (some "tok") none
        = ([Ev.listAccounts "tok"] ++ (fullLoop envC3 "tok" 500 [tA]).1, 200,
           [("ok", JVal.bool true), ("accounts", JVal.num 1), ("transactions", JVal.num 2)])
  ∧ runDeltaSync envBase (some "tok")
        = ([Ev.listAccounts "tok"] ++ (deltaLoop envBase "tok" [tA]).1, 200,
           [("ok", JVal.bool true), ("new_transactions", JVal.num 0)]) :=
  ⟨c6_response_shapes.1 envC3 "tok" none [tA] (fullLoop envC3 "tok" 500 [tA]).1 2
      (by decide) rfl rfl,
   c6_response_shapes.2 envBase "tok" [tA] (deltaLoop envBase "tok" [tA]).1 0
      (by decide) rfl rfl⟩

/-! ## Claim C7 -/

/-- C7, counterexample.  The claim says a present cursor is always passed
to the Transaction Source as `from_id`.  In `envC7` the cursor row for
`acc1` is present with value `""`: because of JS truthiness
(`state?.last_seen_txn_id || null` at line 215 and `if (fromId)` at line
79), the fetch is issued with no `from_id` parameter at all. -/
theorem c7_counterexample :
    (envC7.cursorRead "acc1").data = some ""
  ∧ (runDeltaSync envC7 (some "tok")).1
      = [Ev.listAccounts "tok", Ev.readCursor "acc1",
         Ev.fetchTxns "acc1" "tok" [("count", "500")]] := by
  exact ⟨by decide, by decide⟩

/-- C7, amended.  Every delta pass issues exactly one fetch whose query is
`fetchQuery 500` of the truthy-filtered cursor: an absent cursor yields the
unconstrained query `[("count", "500")]`; a present non-empty cursor `c`
yields `[("count", "500"), ("from_id", c)]` (the cursor as exclusive lower
bound, capped at the page size 500); a present empty-string cursor is
treated like an absent one (JS falsiness). -/
theorem c7_fetch_query_params (env : Env) (tok : String) (a : Account)
    (h : (env.cursorRead a.id).error = none) :
    (Ev.fetchTxns a.id tok (fetchQuery 500 (jsOrNull (env.cursorRead a.id).data))
        ∈ (deltaAccount env tok a).1)
  ∧ ((env.cursorRead a.id).data = none →
      fetchQuery 500 (jsOrNull (env.cursorRead a.id).data) = [("count", "500")])
  ∧ fetchQuery 500 (jsOrNull (some "")) = [("count", "500")]
  ∧ (∀ c : String, c ≠ "" →
      fetchQuery 500 (jsOrNull (some c)) = [("count", "500"), ("from_id", c)]) := by
  refine ⟨?_, ?_, rfl, ?_⟩
  · rcases h2 : env.txnsResult a.id (fetchQuery 500 (jsOrNull (env.cursorRead a.id).data))
      with e | txns
    · rw [deltaAccount_fetchErr env tok a e h h2]
      simp
    · rw [deltaAccount_ok env tok a txns h h2]
      simp
  · intro hd
    rw [hd]
    rfl
  · intro c hc
    have hbeq : (c == "") = false := beq_eq_false_iff_ne.mpr hc
    have h1 : jsOrNull (some c) = some c := by
      unfold jsOrNull
      dsimp only
      rw [hbeq]
      rfl
    rw [h1]
    unfold fetchQuery
    rw [h1]
    rfl

/-- C7, witness: in `envD` (stored cursor `t1`) the issued fetch carries
`count=500` and `from_id=t1`. -/
theorem c7_fetch_query_params_witness :
    (Ev.fetchTxns "acc1" "tok" [("count", "500"), ("from_id", "t1")]
        ∈ (deltaAccount envD "tok" tA).1)
  ∧ fetchQuery 500 (jsOrNull (some "t1")) = [("count", "500"), ("from_id", "t1")] :=
  ⟨(c7_fetch_query_params envD "tok" tA rfl).1,
   (c7_fetch_query_params envD "tok" tA rfl).2.2.2 "t1" (by decide)⟩

/-! ## Claim C8 -/

/-- C8 (confirmed).  A `runDeltaSync` pass in which the Transaction Source
returns no records newer than each account's stored cursor (every fetch
answers the empty list) — which is exactly the second of two back-to-back
runs with no new upstream data — reports `new_transactions: 0` and leaves
the store, in particular every account's cursor, unchanged: applying the
run's trace to any store state is the identity. -/
theorem c8_delta_idempotent_on_quiet_source (env : Env) (tok : String)
    (accounts : List Account)
    (htok : tok ≠ "")
    (hacc : env.accountsResult = Except.ok accounts)
    (hq : ∀ a ∈ accounts, (env.cursorRead a.id).error = none ∧
        env.txnsResult a.id (fetchQuery 500 (jsOrNull (env.cursorRead a.id).data))
          = Except.ok []) :
    (runDeltaSync env (some tok)).2
        = (200, [("ok", JVal.bool true), ("new_transactions", JVal.num 0)])
  ∧ ∀ s : StoreState, applyEvents s (runDeltaSync env (some tok)).1 = s := by
  obtain ⟨hres, happ⟩ := deltaLoop_quiet env tok accounts hq
  rcases hl : deltaLoop env tok accounts with ⟨tr, r⟩
  rw [hl] at hres happ
  dsimp only at hres
  subst hres
  rw [runDeltaSync_bodyTok env tok htok,
    afterToken_loopOk env tok [] tr 0 accounts hacc hl]
  refine ⟨rfl, fun s => ?_⟩
  dsimp only
  rw [List.nil_append, applyEvents_append]
  exact happ s

/-- C8, witness at the concrete input `envBase` (cursorless store, empty
fetch), starting from a store that already holds `t0`. -/
theorem c8_delta_idempotent_on_quiet_source_witness :
    (runDeltaSync envBase (some "tok")).2
        = (200, [("ok", JVal.bool true), ("new_transactions", JVal.num 0)])
  ∧ applyEvents { txnIds := ["t0"], cursors := [("acc1", "t0")] }
        (runDeltaSync envBase (some "tok")).1
      = { txnIds := ["t0"], cursors := [("acc1", "t0")] } :=
  ⟨(c8_delta_idempotent_on_quiet_source envBase "tok" [tA] (by decide) rfl
      fun _ _ => ⟨rfl, rfl⟩).1,
   (c8_delta_idempotent_on_quiet_source envBase "tok" [tA] (by decide) rfl
      fun _ _ => ⟨rfl, rfl⟩).2 _⟩

/-! ## Claim C9 -/

/-- C9 (confirmed).  For any strict-order-like relation `newer` on
transaction ids: if an account's stored cursor is `c` (truthy, hence passed
as `from_id`), and the Transaction Source honours `from_id` as an exclusive
lower bound — every fetched transaction id is `newer` than `c` — then every
cursor write the delta pass issues for that account carries an id that is
`newer` than `c`: the cursor never moves backward across successful
passes. -/
theorem c9_cursor_monotone (newer : String → String → Prop) (env : Env)
    (tok : String) (a : Account) (c : String) (txns : List Txn)
    (h1 : (env.cursorRead a.id).error = none)
    (hc : jsOrNull (env.cursorRead a.id).data = some c)
    (h2 : env.txnsResult a.id (fetchQuery 500 (jsOrNull (env.cursorRead a.id).data))
            = Except.ok txns)
    (hnew : ∀ t ∈ txns, newer t.id c) :
    ∀ aid tid upd err, Ev.setCursor aid tid upd err ∈ (deltaAccount env tok a).1 →
      newer tid c := by
  intro aid tid upd err hmem
  rw [deltaAccount_ok env tok a txns h1 h2] at hmem
  rcases List.mem_append.mp hmem with hmem' | hmem'
  · rcases List.mem_append.mp hmem' with hmem'' | hmem''
    · simp only [List.mem_cons, List.not_mem_nil, or_false] at hmem''
      rcases hmem'' with h | h <;> cases h
    · have hfalse := mem_txnUpsertEvs_not_setCursor env txns.reverse _ hmem''
      simp [isSetCursor] at hfalse
  · cases txns with
    | nil => cases hmem'
    | cons t0 ts =>
      simp only [cursorEv, List.mem_singleton] at hmem'
      cases hmem'
      exact hnew t0 (List.mem_cons_self t0 ts)

/-- C9, witness at the concrete input `envD`: stored cursor `t1`, fetch
`[t5, t4]` (both recorded as newer than `t1`), and the pass's only cursor
write carries `t5`, which is newer than `t1`. -/
theorem c9_cursor_monotone_witness :
    ("t5", "t1") ∈ [("t5", "t1"), ("t4", "t1")] :=
  c9_cursor_monotone (fun x y => (x, y) ∈ [("t5", "t1"), ("t4", "t1")]) envD "tok" tA "t1"
    [txn "t5", txn "t4"] rfl rfl rfl (by decide) "acc1" "t5" "2026-10-11T00:00:00.000Z" none
    (by decide)

/-! ## Claim C10 -/

/-- C10, counterexample.  The claim says the 400 `"No access token on
file"` answer happens iff no token is supplied in the body and none is
stored.  First conjunct: the body supplies the token `""` (and the store is
empty) — a token IS supplied in the body, yet because `req.body?.accessToken
|| null` (line 190) treats `""` as absent, the handler queries the token
store and answers 400.  Second conjunct: no body token, and the store DOES
hold a row (whose token is `""`) — yet the handler answers 400. -/
theorem c10_counterexample :
    runDeltaSync envBase (some "")
        = ([Ev.readLatestToken], 400, [("error", JVal.str "No access token on file")])
  ∧ runDeltaSync envEmptyTok none
        = ([Ev.readLatestToken], 400, [("error", JVal.str "No access token on file")]) := by
  exact ⟨by decide, by decide⟩

/-- C10, amended.  When the body carries no truthy access token and the
token-store read succeeds: the handler first queries the token store
(the run's first event is the token read, before any `listAccounts`); it
answers 400 `"No access token on file"` iff the resolved stored token —
`latestToken`, the row with the greatest `created_at` (last conjunct) — is
absent or the empty string; otherwise the accounts are listed with exactly
that resolved token as credential. -/
theorem c10_token_resolution (env : Env) (bodyToken : Option String)
    (hbody : jsOrNull bodyToken = none)
    (hread : env.tokenReadError = none) :
    ((runDeltaSync env bodyToken).1.head? = some Ev.readLatestToken)
  ∧ ((jsOrNull ((latestToken env.tokens).map Prod.fst) = none)
      ↔ runDeltaSync env bodyToken
          = ([Ev.readLatestToken], 400, [("error", JVal.str "No access token on file")]))
  ∧ (∀ tok, jsOrNull ((latestToken env.tokens).map Prod.fst) = some tok →
      (runDeltaSync env bodyToken).1.take 2 = [Ev.readLatestToken, Ev.listAccounts tok])
  ∧ (∀ p ∈ env.tokens, ∃ q, latestToken env.tokens = some q ∧ p.2 ≤ q.2) := by
  have hrun : runDeltaSync env bodyToken
      = match jsOrNull ((latestToken env.tokens).map Prod.fst) with
        | none => ([Ev.readLatestToken], 400, [("error", JVal.str "No access token on file")])
        | some tok => afterToken env tok [Ev.readLatestToken] := by
    unfold runDeltaSync
    rw [hbody]
    dsimp only
    rw [hread]
  refine ⟨?_, ?_, ?_, latestToken_max env.tokens⟩
  · rw [hrun]
    cases hopt : jsOrNull ((latestToken env.tokens).map Prod.fst) with
    | none => rfl
    | some tok =>
      obtain ⟨rest, htr⟩ := afterToken_trace env tok [Ev.readLatestToken]
      dsimp only
      rw [htr]
      rfl
  · rw [hrun]
    cases hopt : jsOrNull ((latestToken env.tokens).map Prod.fst) with
    | none => simp
    | some tok =>
      dsimp only
      constructor
      · intro h
        cases h
      · intro h
        have hst := afterToken_status env tok [Ev.readLatestToken]
        rw [h] at hst
        rcases hst with h' | h' <;> exact absurd h' (by decide)
  · intro tok htok
    rw [hrun, htok]
    obtain ⟨rest, htr⟩ := afterToken_trace env tok [Ev.readLatestToken]
    dsimp only
    rw [htr]
    rfl

/-- C10, witness at the concrete input `envTok2`: with no body token, the
handler reads the token store first and then lists accounts with `tokB`,
the stored token with the greatest `created_at`. -/
theorem c10_token_resolution_witness :
    ((runDeltaSync envTok2 none).1.head? = some Ev.readLatestToken)
  ∧ (runDeltaSync envTok2 none).1.take 2
      = [Ev.readLatestToken, Ev.listAccounts "tokB"] :=
  ⟨(c10_token_resolution envTok2 none rfl rfl).1,
   (c10_token_resolution envTok2 none rfl rfl).2.2.1 "tokB" rfl⟩

end TellerSync
